import Mathlib

/-!
# Verification of `src/lambda/create_index/index.py`

A shallow embedding of the OpenSearch index-provisioning Lambda handler.
The module models the two Python functions:

* `make_signed_request(method, url, region, payload)` — the signed request
  issuer.  Its network effect is modelled by a `TransportOutcome` describing
  what the transport layer did; the function's own control flow
  (`try`/`except urllib.error.HTTPError`) is translated faithfully.
* `handler(event, context)` — the provisioning orchestrator.  The network
  environment is modelled by an `Env` giving the outcome of each outbound
  request; the handler is a pure function from the event and the environment
  to a result (`Except` models Python exceptions) together with the trace of
  outbound requests it issued.

Python strings are modelled as `String`; a JSON body that matters only
through its parsed `status` field is modelled by `HealthBody`.
-/

set_option linter.unusedVariables false

namespace CreateIndex

/-! ## Signed request issuer (`make_signed_request`, lines 12–43) -/

/-- What the transport layer (`urllib.request.urlopen`) did for one request:
a normal response, an `HTTPError` (an error object that still carries a
structured HTTP response, e.g. a 4xx/5xx), or any other failure
(DNS, connection refused, timeout, ...), which raises an exception that is
not an `HTTPError`. -/
inductive TransportOutcome where
  | success (code : Nat) (body : String)
  | httpError (code : Nat) (body : String)
  | failure (msg : String)
  deriving DecidableEq, Repr

/-- Lines 39–43 of `make_signed_request`: on a normal response return
`(code, body)`; on an `HTTPError e` return `(e.code, e.read())`; any other
exception propagates (modelled by `Except.error`). -/
def make_signed_request : TransportOutcome → Except String (Nat × String)
  | .success code body => .ok (code, body)
  | .httpError code body => .ok (code, body)
  | .failure msg => .error msg

/-! ## Endpoint normalization (lines 57–63) -/

/-- Python's `s.startswith(pre)`: `pre` is a prefix of `s`'s character
sequence. -/
def pyStartsWith (s pre : String) : Bool :=
  pre.data.isPrefixOf s.data

/-- Python's slice `s[n:]`: drop the first `n` characters. -/
def pyDrop (s : String) (n : Nat) : String :=
  ⟨s.data.drop n⟩

/-- Lines 58–61: strip one leading `https://` (8 characters), then one
leading `http://` (7 characters), if present. -/
def stripScheme (domainEndpoint : String) : String :=
  let d1 := if pyStartsWith domainEndpoint "https://" then pyDrop domainEndpoint 8
            else domainEndpoint
  if pyStartsWith d1 "http://" then pyDrop d1 7 else d1

/-- Line 63: `base_url = f"https://{domain_endpoint}"` after stripping. -/
def normalizeEndpoint (domainEndpoint : String) : String :=
  "https://" ++ stripScheme domainEndpoint

/-- The claim-side notion "starts with exactly one `https://` prefix":
the character data begins with `https://` and, after those 8 characters,
does not begin with `https://` again. -/
def startsWithExactlyOneHttps (s : String) : Prop :=
  "https://".data <+: s.data ∧ ¬ ("https://".data <+: s.data.drop 8)

instance (s : String) : Decidable (startsWithExactlyOneHttps s) := by
  unfold startsWithExactlyOneHttps; infer_instance

/-! ## Readiness poll (lines 77–92) -/

/-- The JSON body of a health response, seen through `json.loads` and
`health.get('status')`: either it parses to an object whose `status` field
is `some s` (or absent, `none`), or `json.loads` raises. -/
inductive HealthBody where
  | parsed (status : Option String)
  | malformed
  deriving DecidableEq, Repr

/-- The outcome of one `make_signed_request('GET', .../_cluster/health, ...)`
call: a returned `(status_code, response)` pair (with the body abstracted to
`HealthBody`), or an exception from the request itself. -/
inductive HealthAttempt where
  | ok (code : Nat) (body : HealthBody)
  | err (msg : String)
  deriving DecidableEq, Repr

/-- How one iteration of the polling loop classifies its attempt:
`ready` (break), `notReady` (print, sleep, continue), or `exn` (the `except`
branch: an exception was raised inside the `try`). -/
inductive AttemptOutcome where
  | ready
  | notReady
  | exn (msg : String)
  deriving DecidableEq, Repr

/-- Lines 80–85: the `try` body of one poll attempt.  `json.loads` runs only
when the HTTP status is 200; a malformed body then raises.  The cluster is
ready exactly when the status is 200 and the parsed `status` field is
`"green"` or `"yellow"`. -/
def attemptStep : HealthAttempt → AttemptOutcome
  | .err m => .exn m
  | .ok code body =>
    if code = 200 then
      match body with
      | .malformed => .exn "json.loads failed"
      | .parsed st =>
        if st = some "green" ∨ st = some "yellow" then .ready else .notReady
    else .notReady

/-- An observable event of the polling loop: one health call, or one
`time.sleep(d)`. -/
inductive PollEv where
  | call
  | sleep (d : Nat)
  deriving DecidableEq, Repr

/-- How the polling loop ended: `break` on a ready cluster, falling through
the `for` after exhausting all attempts, or re-raising the exception of the
final attempt. -/
inductive PollExit where
  | ready
  | exhausted
  | raised (msg : String)
  deriving DecidableEq, Repr

/-- Result of the polling loop: how it exited, plus the trace of health
calls and sleeps it performed, in order. -/
structure PollResult where
  exit : PollExit
  trace : List PollEv
  deriving DecidableEq, Repr

/-- Lines 78–92, the `for i in range(max_retries)` loop, with `fuel`
remaining iterations (including the current one); `env i` is the outcome of
the health request of attempt `i`.  `fuel = 0` after the current attempt
corresponds to `i == max_retries - 1`, where the `except` branch re-raises;
otherwise both the not-ready path and the `except` path sleep 10 and
continue. -/
def pollAux (env : Nat → HealthAttempt) : Nat → Nat → PollResult
  | _, 0 => ⟨.exhausted, []⟩
  | i, fuel + 1 =>
    match attemptStep (env i) with
    | .ready => ⟨.ready, [.call]⟩
    | .notReady =>
      let r := pollAux env (i + 1) fuel
      ⟨r.exit, .call :: .sleep 10 :: r.trace⟩
    | .exn m =>
      if fuel = 0 then ⟨.raised m, [.call]⟩
      else
        let r := pollAux env (i + 1) fuel
        ⟨r.exit, .call :: .sleep 10 :: r.trace⟩

/-- Line 77: `max_retries = 30`. -/
def max_retries : Nat := 30

/-- The whole readiness poll, starting at attempt 0 with 30 attempts. -/
def poll (env : Nat → HealthAttempt) : PollResult :=
  pollAux env 0 max_retries

/-- Number of health calls in a poll trace. -/
def callCount (t : List PollEv) : Nat :=
  t.countP fun e => e = PollEv.call

/-- The trace of a poll that found the cluster ready on attempt `k`
(0-based): `k` failed attempts each followed by a 10-unit sleep, then the
successful call. -/
def readyTrace (k : Nat) : List PollEv :=
  (List.replicate k [PollEv.call, PollEv.sleep 10]).flatten ++ [PollEv.call]

/-- The trace of a poll whose 30 attempts all found the cluster not ready:
each attempt is followed by a 10-unit sleep (including the last). -/
def exhaustedTrace : List PollEv :=
  (List.replicate max_retries [PollEv.call, PollEv.sleep 10]).flatten

/-! ## The handler (lines 45–248) -/

/-- `event['ResourceProperties']` as a Python dict: every key may be
missing. -/
structure Props where
  domainEndpoint : Option String
  indexName : Option String
  region : Option String
  kbRoleArn : Option String
  adminRoleArn : Option String
  deriving DecidableEq, Repr

/-- The Lambda event: `ResourceProperties` and `RequestType`, each possibly
missing. -/
structure LambdaEvent where
  resourceProperties : Option Props
  requestType : Option String
  deriving DecidableEq, Repr

/-- The fields of the event after the extraction of lines 49–55
succeeded. -/
structure Parsed where
  domainEndpoint : String
  indexName : String
  region : String
  kbRoleArn : String
  adminRoleArn : Option String
  requestType : String
  deriving DecidableEq, Repr

/-- Lines 49–55: field extraction.  A missing required key raises `KeyError`
(whose `str()` is the quoted key name); `props.get('AdminRoleArn')` and
`event.get('RequestType', 'Create')` do not raise. -/
def parseEvent (ev : LambdaEvent) : Except String Parsed :=
  match ev.resourceProperties with
  | none => .error "'ResourceProperties'"
  | some props =>
    match props.domainEndpoint with
    | none => .error "'DomainEndpoint'"
    | some de =>
      match props.indexName with
      | none => .error "'IndexName'"
      | some ix =>
        match props.region with
        | none => .error "'Region'"
        | some rg =>
          match props.kbRoleArn with
          | none => .error "'KbRoleArn'"
          | some kb =>
            .ok { domainEndpoint := de, indexName := ix, region := rg,
                  kbRoleArn := kb, adminRoleArn := props.adminRoleArn,
                  requestType := ev.requestType.getD "Create" }

/-- Lines 144–146: `backend_roles = [kb_role_arn]`, then append
`admin_role_arn` if it is truthy (present and non-empty) and not already in
the list. -/
def backendRoles (kbRoleArn : String) (adminRoleArn : Option String) :
    List String :=
  let base := [kbRoleArn]
  match adminRoleArn with
  | none => base
  | some a => if a ≠ "" ∧ a ∉ base then base ++ [a] else base

/-- Lines 170–174: `kb_only_mapping` backend roles — only the KB role. -/
def kbOnlyRoles (kbRoleArn : String) : List String :=
  [kbRoleArn]

/-- One outbound request of the handler, tagged with the data that the claims
are about (the mapping payloads' backend-role lists, the index name). -/
inductive Request where
  | health
  | putRole
  | putBroadMapping (roles : List String)
  | putNarrowMapping (roles : List String)
  | putIndex (name : String)
  deriving DecidableEq, Repr

/-- Outcome of one non-health `make_signed_request` call: a returned
`(status_code, response)` pair, or a raised exception. -/
inductive ReqOutcome where
  | ok (code : Nat) (body : String)
  | err (msg : String)
  deriving DecidableEq, Repr

/-- The network environment of one invocation: the outcome of each health
attempt, and of the role, broad-mapping, narrow-mapping and index-creation
requests. -/
structure Env where
  health : Nat → HealthAttempt
  roleCreate : ReqOutcome
  broadMapping : ReqOutcome
  narrowMapping : ReqOutcome
  indexCreate : ReqOutcome

/-- The handler's successful return value `{'statusCode': ..., 'body': ...}`. -/
structure HandlerResult where
  statusCode : Nat
  body : String
  deriving DecidableEq, Repr

/-- Line 70: `json.dumps('Cleaned up role and mappings')`. -/
def deleteSuccessBody : String := "\"Cleaned up role and mappings\""

/-- Line 243: `json.dumps('Index created successfully with IAM authentication')`. -/
def createSuccessBody : String := "\"Index created successfully with IAM authentication\""

/-- The health calls of the poll, as handler-level requests. -/
def healthCalls (r : PollResult) : List Request :=
  List.replicate (callCount r.trace) Request.health

/-- Lines 48–244: the body of the `try` block of `handler`, returning the
result (or the exception raised inside the `try`) together with the ordered
trace of outbound requests issued.  Field extraction and endpoint
normalization come first; the Delete branch returns before any network
call; then the readiness poll, role creation (status ignored), the two role
mappings, `time.sleep(30)`, index creation, and the final status check. -/
def handlerCore (ev : LambdaEvent) (env : Env) :
    Except String HandlerResult × List Request :=
  match parseEvent ev with
  | .error m => (.error m, [])
  | .ok p =>
    let baseUrl := normalizeEndpoint p.domainEndpoint
    if p.requestType = "Delete" then
      (.ok ⟨200, deleteSuccessBody⟩, [])
    else
      let pr := poll env.health
      let t0 := healthCalls pr
      match pr.exit with
      | .raised m => (.error m, t0)
      | _ =>
        -- create the OpenSearch internal role; response only printed
        let t1 := t0 ++ [Request.putRole]
        match env.roleCreate with
        | .err m => (.error m, t1)
        | .ok _ _ =>
          let roles := backendRoles p.kbRoleArn p.adminRoleArn
          let t2 := t1 ++ [Request.putBroadMapping roles]
          match env.broadMapping with
          | .err m => (.error m, t2)
          | .ok _ _ =>
            let t3 := t2 ++ [Request.putNarrowMapping (kbOnlyRoles p.kbRoleArn)]
            match env.narrowMapping with
            | .err m => (.error m, t3)
            | .ok _ _ =>
              -- time.sleep(30), then create the index
              let t4 := t3 ++ [Request.putIndex p.indexName]
              match env.indexCreate with
              | .err m => (.error m, t4)
              | .ok code body =>
                if code = 200 ∨ code = 201 then
                  (.ok ⟨200, createSuccessBody⟩, t4)
                else
                  (.error ("Failed to create index: " ++ body), t4)

/-- Lines 246–248: the `except` clause — any exception raised inside the
`try` is re-raised wrapped as `Failed to create index: {e}`. -/
def handler (ev : LambdaEvent) (env : Env) :
    Except String HandlerResult × List Request :=
  match handlerCore ev env with
  | (.ok v, t) => (.ok v, t)
  | (.error m, t) => (.error ("Failed to create index: " ++ m), t)

/-! ## Sample inputs used by witnesses and counterexamples -/

/-- A well-formed `ResourceProperties` dict with all required keys. -/
def sampleProps : Props :=
  { domainEndpoint := some "search-x.region.es.amazonaws.com",
    indexName := some "kb-index",
    region := some "us-east-1",
    kbRoleArn := some "arn:aws:iam::1:role/kb",
    adminRoleArn := none }

/-- A well-formed Create event. -/
def sampleEventCreate : LambdaEvent :=
  { resourceProperties := some sampleProps, requestType := some "Create" }

/-- A well-formed Delete event. -/
def sampleEventDelete : LambdaEvent :=
  { resourceProperties := some sampleProps, requestType := some "Delete" }

/-- A health environment whose every response is HTTP 200 with body status
`"red"`. -/
def redHealth : Nat → HealthAttempt :=
  fun _ => .ok 200 (.parsed (some "red"))

/-- A health environment that answers `"red"` on attempts 0 and 1 and
`"green"` from attempt 2 on. -/
def greenAtTwoHealth : Nat → HealthAttempt :=
  fun i => if i < 2 then .ok 200 (.parsed (some "red"))
           else .ok 200 (.parsed (some "green"))

/-- A health environment that answers `"red"` on attempts 0–28 and raises a
transport error on attempt 29 (the final attempt). -/
def lateExnHealth : Nat → HealthAttempt :=
  fun i => if i < 29 then .ok 200 (.parsed (some "red")) else .err "boom"

/-- An environment where the cluster is immediately green and every
provisioning request returns 200. -/
def greenEnv : Env :=
  { health := fun _ => .ok 200 (.parsed (some "green")),
    roleCreate := .ok 200 "{}",
    broadMapping := .ok 200 "{}",
    narrowMapping := .ok 200 "{}",
    indexCreate := .ok 200 "{}" }

/-- An environment where every health check reports `"red"` but every
provisioning request returns 200. -/
def redEnv : Env :=
  { health := redHealth,
    roleCreate := .ok 200 "{}",
    broadMapping := .ok 200 "{}",
    narrowMapping := .ok 200 "{}",
    indexCreate := .ok 200 "{}" }

/-! ## Helper lemmas -/

/-- The `except` wrapper of `handler` changes only the result, never the
trace of issued requests. -/
theorem handler_snd (ev : LambdaEvent) (env : Env) :
    (handler ev env).2 = (handlerCore ev env).2 := by
  unfold handler
  rcases h : handlerCore ev env with ⟨r, t⟩
  cases r <;> simp

/-- Full characterization of a run that gets past the poll and in which all
four provisioning requests return a response. -/
theorem handlerCore_run (ev : LambdaEvent) (env : Env) (p : Parsed)
    (c1 c2 c3 c4 : Nat) (b1 b2 b3 b4 : String)
    (hp : parseEvent ev = .ok p) (hd : p.requestType ≠ "Delete")
    (hpoll : ∀ m, (poll env.health).exit ≠ .raised m)
    (h1 : env.roleCreate = .ok c1 b1)
    (h2 : env.broadMapping = .ok c2 b2)
    (h3 : env.narrowMapping = .ok c3 b3)
    (h4 : env.indexCreate = .ok c4 b4) :
    handlerCore ev env =
      ((if c4 = 200 ∨ c4 = 201 then .ok ⟨200, createSuccessBody⟩
        else .error ("Failed to create index: " ++ b4)),
       healthCalls (poll env.health) ++
         [Request.putRole,
          Request.putBroadMapping (backendRoles p.kbRoleArn p.adminRoleArn),
          Request.putNarrowMapping (kbOnlyRoles p.kbRoleArn),
          Request.putIndex p.indexName]) := by
  unfold handlerCore
  rw [hp]
  simp only [if_neg hd]
  cases hexit : (poll env.health).exit with
  | raised m => exact absurd hexit (hpoll m)
  | ready =>
    simp only [hexit, h1, h2, h3, h4]
    split <;> simp
  | exhausted =>
    simp only [hexit, h1, h2, h3, h4]
    split <;> simp

/-! ## Claim C5 — signed request issuer error contract -/

/-- Claim C5: for every call to the signed request issuer, a transport error
that carries a structured HTTP response (an `HTTPError`) makes the issuer
return that response's numeric status and decoded body instead of raising,
while any other transport failure propagates to the caller as an error. -/
theorem signed_request_error_contract :
    (∀ code body,
        make_signed_request (.httpError code body) = .ok (code, body)) ∧
    (∀ msg, make_signed_request (.failure msg) = .error msg) :=
  ⟨fun _ _ => rfl, fun _ => rfl⟩

/-! ## Claim C3 — Delete events are a network no-op -/

/-- Claim C3: for every well-formed event whose lifecycle action is Delete,
the handler issues zero outbound requests and returns the fixed success
response with `statusCode` 200 immediately, for every network
environment. -/
theorem delete_no_calls_fixed_success (ev : LambdaEvent) (env : Env)
    (p : Parsed) (hp : parseEvent ev = .ok p)
    (hd : p.requestType = "Delete") :
    handler ev env = (.ok ⟨200, deleteSuccessBody⟩, []) := by
  have hc : handlerCore ev env = (.ok ⟨200, deleteSuccessBody⟩, []) := by
    unfold handlerCore
    rw [hp]
    simp [hd]
  unfold handler
  rw [hc]

/-- Witness for C3: the sample Delete event, against an environment that
would answer every request, returns the fixed success result with an empty
request trace. -/
theorem delete_no_calls_fixed_success_witness :
    handler sampleEventDelete greenEnv = (.ok ⟨200, deleteSuccessBody⟩, []) :=
  delete_no_calls_fixed_success sampleEventDelete greenEnv
    { domainEndpoint := "search-x.region.es.amazonaws.com",
      indexName := "kb-index", region := "us-east-1",
      kbRoleArn := "arn:aws:iam::1:role/kb", adminRoleArn := none,
      requestType := "Delete" }
    rfl rfl

/-! ## Claim C4 — backend-role lists of the two mappings -/

/-- Unfolding of `backendRoles` with no admin identity. -/
theorem backendRoles_none (kb : String) : backendRoles kb none = [kb] := rfl

/-- Unfolding of `backendRoles` with a supplied admin identity. -/
theorem backendRoles_some (kb a : String) :
    backendRoles kb (some a) =
      if a ≠ "" ∧ a ∉ [kb] then [kb, a] else [kb] := rfl

/-- Claim C4, counterexample: with `KbRoleArn = "r"` and `AdminRoleArn =
"r"` (supplied and equal), the narrow mapping's backend-role list `["r"]`
does contain the admin identity, and the broad mapping's list contains the
admin identity although it was not supplied-and-distinct — so "contains the
admin identity if and only if supplied and distinct" and "never contains
the admin identity" are both false as stated. -/
theorem mapping_roles_counterexample :
    (some "r" : Option String).isSome = true ∧
    ("r" : String) ∈ kbOnlyRoles "r" ∧
    ¬ ((("r" : String) ∈ backendRoles "r" (some "r")) ↔
        ((some "r" : Option String).isSome = true ∧ ("r" : String) ≠ "r")) := by
  decide

/-- Claim C4 as amended: the broad mapping's backend-role list always
contains the knowledge-base identity; it contains the admin identity
whenever one was supplied that is non-empty and distinct from the
knowledge-base identity; every entry is the knowledge-base identity or such
a supplied admin identity; and the narrow mapping's list is always exactly
the one-element list holding the knowledge-base identity (so it contains
the admin identity only in the degenerate case where the admin identity
equals the knowledge-base identity). -/
theorem mapping_roles_contents (kb : String) (admin : Option String) :
    kb ∈ backendRoles kb admin ∧
    (∀ a, admin = some a → a ≠ "" → a ≠ kb → a ∈ backendRoles kb admin) ∧
    (∀ x, x ∈ backendRoles kb admin →
      x = kb ∨ (admin = some x ∧ x ≠ "" ∧ x ≠ kb)) ∧
    kbOnlyRoles kb = [kb] := by
  cases admin with
  | none => simp [backendRoles_none, kbOnlyRoles]
  | some a =>
    simp only [backendRoles_some]
    refine ⟨?_, ?_, ?_, rfl⟩
    · split <;> simp
    · intro b hb hne hnk
      obtain rfl : a = b := by injection hb
      rw [if_pos ⟨hne, by simpa using hnk⟩]
      simp
    · intro x hx
      split at hx
      · rcases (by simpa using hx : x = kb ∨ x = a) with rfl | rfl
        · exact Or.inl rfl
        · rename_i hc
          exact Or.inr ⟨rfl, hc.1, by simpa using hc.2⟩
      · exact Or.inl (by simpa using hx)

/-- Witness for C4 (amended): with a distinct non-empty admin identity both
identities are in the broad list, and the narrow list is exactly the
knowledge-base identity. -/
theorem mapping_roles_contents_witness :
    ("arn:kb" : String) ∈ backendRoles "arn:kb" (some "arn:admin") ∧
    ("arn:admin" : String) ∈ backendRoles "arn:kb" (some "arn:admin") ∧
    kbOnlyRoles "arn:kb" = ["arn:kb"] :=
  ⟨(mapping_roles_contents "arn:kb" (some "arn:admin")).1,
   (mapping_roles_contents "arn:kb" (some "arn:admin")).2.1 "arn:admin"
     rfl (by decide) (by decide),
   (mapping_roles_contents "arn:kb" (some "arn:admin")).2.2.2⟩

/-! ## Claim C7 — normalized base URL -/

/-- Claim C7, counterexample: the endpoint `"https://https://a"` is given
with an `https://` prefix, yet the normalized base URL the handler would
build starts with two `https://` prefixes, because lines 58–61 strip only
one leading scheme. -/
theorem normalize_counterexample :
    pyStartsWith "https://https://a" "https://" = true ∧
    ¬ startsWithExactlyOneHttps (normalizeEndpoint "https://https://a") := by
  decide

/-- Claim C7 as amended: for every endpoint given with an `https://` or
`http://` prefix whose remainder after the stripping of lines 58–61 does
not itself begin with `https://`, the normalized cluster base URL starts
with exactly one `https://` prefix. -/
theorem normalize_single_https (d : String)
    (h : pyStartsWith d "https://" = true ∨ pyStartsWith d "http://" = true)
    (hs : ¬ ("https://".data <+: (stripScheme d).data)) :
    startsWithExactlyOneHttps (normalizeEndpoint d) := by
  constructor
  · show "https://".data <+: (normalizeEndpoint d).data
    rw [normalizeEndpoint, String.data_append]
    exact List.prefix_append _ _
  · rw [normalizeEndpoint, String.data_append]
    have hdrop : ("https://".data ++ (stripScheme d).data).drop 8 =
        (stripScheme d).data := by
      have h8 : ("https://".data).length = 8 := rfl
      rw [← h8, List.drop_left]
    rw [hdrop]
    exact hs

/-- Witness for C7 (amended): a realistic endpoint with a single `https://`
prefix normalizes to a base URL with exactly one `https://`. -/
theorem normalize_single_https_witness :
    startsWithExactlyOneHttps
      (normalizeEndpoint "https://search-x.region.es.amazonaws.com") :=
  normalize_single_https "https://search-x.region.es.amazonaws.com"
    (Or.inl (by decide)) (by decide)

/-! ## Poll-loop lemmas -/

/-- Unfolding equation for one iteration of the polling loop. -/
theorem pollAux_succ (env : Nat → HealthAttempt) (i f : Nat) :
    pollAux env i (f + 1) =
      match attemptStep (env i) with
      | .ready => ⟨.ready, [.call]⟩
      | .notReady =>
        ⟨(pollAux env (i + 1) f).exit,
         .call :: .sleep 10 :: (pollAux env (i + 1) f).trace⟩
      | .exn m =>
        if f = 0 then ⟨.raised m, [.call]⟩
        else ⟨(pollAux env (i + 1) f).exit,
              .call :: .sleep 10 :: (pollAux env (i + 1) f).trace⟩ := rfl

/-- Empty traces have no calls. -/
theorem callCount_nil : callCount [] = 0 := rfl

/-- A health call adds one to the call count. -/
theorem callCount_cons_call (t : List PollEv) :
    callCount (.call :: t) = callCount t + 1 := by
  simp [callCount]

/-- A sleep does not change the call count. -/
theorem callCount_cons_sleep (d : Nat) (t : List PollEv) :
    callCount (.sleep d :: t) = callCount t := by
  simp [callCount]

/-- The loop with `fuel` remaining iterations performs at most `fuel` health
calls. -/
theorem pollAux_calls_le (env : Nat → HealthAttempt) :
    ∀ fuel i, callCount (pollAux env i fuel).trace ≤ fuel := by
  intro fuel
  induction fuel with
  | zero => intro i; simp [pollAux, callCount_nil]
  | succ f ih =>
    intro i
    rw [pollAux_succ]
    cases attemptStep (env i) with
    | ready => simp [callCount_cons_call, callCount_nil]
    | notReady =>
      simp only [callCount_cons_call, callCount_cons_sleep]
      exact Nat.succ_le_succ (ih (i + 1))
    | exn m =>
      by_cases hf : f = 0
      · simp [hf, callCount_cons_call, callCount_nil]
      · simp only [if_neg hf, callCount_cons_call, callCount_cons_sleep]
        exact Nat.succ_le_succ (ih (i + 1))

/-- If the first ready attempt (relative to start index `i`) is attempt
`i + k` and `k` is within the remaining fuel, the loop breaks there with the
trace of `k` failed attempts, each followed by a 10-unit sleep, and the
final successful call. -/
theorem pollAux_ready_first (env : Nat → HealthAttempt) :
    ∀ k i fuel, k < fuel →
      attemptStep (env (i + k)) = .ready →
      (∀ j, j < k → attemptStep (env (i + j)) ≠ .ready) →
      pollAux env i fuel = ⟨.ready, readyTrace k⟩ := by
  intro k
  induction k with
  | zero =>
    intro i fuel hf hr _
    obtain ⟨f, rfl⟩ : ∃ f, fuel = f + 1 := ⟨fuel - 1, by omega⟩
    rw [pollAux_succ]
    rw [Nat.add_zero] at hr
    rw [hr]
    simp [readyTrace]
  | succ k ih =>
    intro i fuel hf hr hne
    obtain ⟨f, rfl⟩ : ∃ f, fuel = f + 1 := ⟨fuel - 1, by omega⟩
    have hf' : k < f := by omega
    have h0 : attemptStep (env i) ≠ .ready := by
      have := hne 0 (by omega)
      simpa using this
    have hrest : pollAux env (i + 1) f = ⟨.ready, readyTrace k⟩ := by
      refine ih (i + 1) f hf' ?_ ?_
      · rw [show i + 1 + k = i + (k + 1) by omega]
        exact hr
      · intro j hjk
        rw [show i + 1 + j = i + (j + 1) by omega]
        exact hne (j + 1) (by omega)
    rw [pollAux_succ]
    cases hstep : attemptStep (env i) with
    | ready => exact absurd hstep h0
    | notReady =>
      simp [hrest, readyTrace, List.replicate_succ]
    | exn m =>
      have hfz : f ≠ 0 := by omega
      simp [hfz, hrest, readyTrace, List.replicate_succ]

/-- If every attempt within the remaining fuel is not ready, the loop falls
through with an `exhausted` exit, every attempt being followed by a 10-unit
sleep. -/
theorem pollAux_all_notReady (env : Nat → HealthAttempt) :
    ∀ fuel i, (∀ j, j < fuel → attemptStep (env (i + j)) = .notReady) →
      pollAux env i fuel =
        ⟨.exhausted,
         (List.replicate fuel [PollEv.call, PollEv.sleep 10]).flatten⟩ := by
  intro fuel
  induction fuel with
  | zero => intro i _; simp [pollAux]
  | succ f ih =>
    intro i hall
    rw [pollAux_succ]
    have h0 : attemptStep (env i) = .notReady := by
      simpa using hall 0 (by omega)
    rw [h0]
    have hrest := ih (i + 1) (fun j hj => by
      rw [show i + 1 + j = i + (j + 1) by omega]
      exact hall (j + 1) (by omega))
    simp [hrest, List.replicate_succ]

/-- If every attempt but the last is not ready and the last raises, the loop
re-raises that exception. -/
theorem pollAux_last_exn (env : Nat → HealthAttempt) (m : String) :
    ∀ fuel i, 0 < fuel →
      attemptStep (env (i + (fuel - 1))) = .exn m →
      (∀ j, j < fuel - 1 → attemptStep (env (i + j)) = .notReady) →
      (pollAux env i fuel).exit = .raised m := by
  intro fuel
  induction fuel with
  | zero => intro i h; omega
  | succ f ih =>
    intro i _ hlast hall
    rw [pollAux_succ]
    by_cases hf : f = 0
    · subst hf
      rw [Nat.add_zero] at hlast
      rw [hlast]
      simp
    · have h0 : attemptStep (env i) = .notReady := by
        simpa using hall 0 (by omega)
      rw [h0]
      have : (pollAux env (i + 1) f).exit = .raised m := by
        refine ih (i + 1) (by omega) ?_ ?_
        · rw [show i + 1 + (f - 1) = i + f by omega]
          simpa using hlast
        · intro j hj
          rw [show i + 1 + j = i + (j + 1) by omega]
          exact hall (j + 1) (by omega)
      simpa using this

/-! ## Claim C8 — poll termination, first-ready stop, 10-unit waits -/

/-- Claim C8: the readiness poll always performs at most 30 health calls;
when attempt `k < 30` is the first to observe `"green"`/`"yellow"`, the loop
stops there — its whole trace is the `k` failed calls, each followed by a
10-unit sleep, then the successful call, and no later health calls; and when
all 30 attempts observe a not-ready cluster, the trace is 30 calls each
followed by a 10-unit sleep. -/
theorem poll_bounded_stops_at_first_ready :
    (∀ env, callCount (poll env).trace ≤ max_retries) ∧
    (∀ env k, k < max_retries → attemptStep (env k) = .ready →
      (∀ j, j < k → attemptStep (env j) ≠ .ready) →
      poll env = ⟨.ready, readyTrace k⟩) ∧
    (∀ env, (∀ j, j < max_retries → attemptStep (env j) = .notReady) →
      poll env = ⟨.exhausted, exhaustedTrace⟩) := by
  refine ⟨fun env => pollAux_calls_le env max_retries 0,
          fun env k hk hr hne => ?_, fun env hall => ?_⟩
  · exact pollAux_ready_first env k 0 max_retries hk (by simpa using hr)
      (fun j hj => by simpa using hne j hj)
  · exact pollAux_all_notReady env max_retries 0
      (fun j hj => by simpa using hall j hj)

/-- Witness for C8: with `"red"` on attempts 0–1 and `"green"` on attempt 2
the poll stops after 3 calls with two 10-unit sleeps in between; with
`"red"` everywhere it performs exactly the 30-attempt exhausted trace; the
call-count bound holds for the first environment. -/
theorem poll_bounded_stops_at_first_ready_witness :
    callCount (poll greenAtTwoHealth).trace ≤ max_retries ∧
    poll greenAtTwoHealth = ⟨.ready, readyTrace 2⟩ ∧
    poll redHealth = ⟨.exhausted, exhaustedTrace⟩ :=
  ⟨poll_bounded_stops_at_first_ready.1 greenAtTwoHealth,
   poll_bounded_stops_at_first_ready.2.1 greenAtTwoHealth 2 (by decide)
     (by decide) (by decide),
   poll_bounded_stops_at_first_ready.2.2 redHealth (by decide)⟩

/-! ## Claim C9 — readiness acceptance condition -/

/-- A health environment whose every response is HTTP 200 with an
unparseable body. -/
def malformedHealth : Nat → HealthAttempt :=
  fun _ => .ok 200 .malformed

/-- Claim C9: an attempt is accepted as ready exactly when the HTTP status
is 200 and the parsed `status` field is `"green"` or `"yellow"`; a non-200
response is never accepted, whatever its body says, and the loop continues;
a 200 response with an unparseable body raises inside the attempt, which is
retried (sleep 10, next attempt) when it is not the final attempt and
re-raised when every earlier attempt was not ready and it is the final
attempt. -/
theorem readiness_acceptance :
    (∀ code st, attemptStep (.ok code (.parsed st)) = .ready ↔
        (code = 200 ∧ (st = some "green" ∨ st = some "yellow"))) ∧
    (∀ code body, code ≠ 200 → attemptStep (.ok code body) = .notReady) ∧
    (∃ m, attemptStep (.ok 200 .malformed) = .exn m) ∧
    (∀ env fuel i m, attemptStep (env i) = .exn m → fuel ≠ 0 →
        pollAux env i (fuel + 1) =
          ⟨(pollAux env (i + 1) fuel).exit,
           .call :: .sleep 10 :: (pollAux env (i + 1) fuel).trace⟩) ∧
    (∀ env m, attemptStep (env (max_retries - 1)) = .exn m →
        (∀ j, j < max_retries - 1 → attemptStep (env j) = .notReady) →
        (poll env).exit = .raised m) := by
  refine ⟨?_, ?_, ⟨"json.loads failed", rfl⟩, ?_, ?_⟩
  · intro code st
    by_cases h200 : code = 200 <;>
      by_cases hst : st = some "green" ∨ st = some "yellow" <;>
        simp [attemptStep, h200, hst]
  · intro code body hne
    cases body <;> simp [attemptStep, hne]
  · intro env fuel i m hstep hf
    rw [pollAux_succ, hstep]
    simp [hf]
  · intro env m hlast hall
    exact pollAux_last_exn env m max_retries 0 (by decide)
      (by simpa using hlast) (fun j hj => by simpa using hall j hj)

/-- Witness for C9: a 503 response with a `"green"` body is not accepted; a
200 `"green"` response is; a malformed 200 body on a non-final attempt makes
the loop sleep and continue; `"red"` up to attempt 28 and a transport error
on final attempt 29 makes the whole poll raise. -/
theorem readiness_acceptance_witness :
    attemptStep (.ok 503 (.parsed (some "green"))) = .notReady ∧
    attemptStep (.ok 200 (.parsed (some "green"))) = .ready ∧
    pollAux malformedHealth 0 30 =
      ⟨(pollAux malformedHealth 1 29).exit,
       .call :: .sleep 10 :: (pollAux malformedHealth 1 29).trace⟩ ∧
    (poll lateExnHealth).exit = .raised "boom" :=
  ⟨readiness_acceptance.2.1 503 (.parsed (some "green")) (by decide),
   (readiness_acceptance.1 200 (some "green")).2 ⟨rfl, Or.inl rfl⟩,
   readiness_acceptance.2.2.2.1 malformedHealth 29 0 "json.loads failed"
     rfl (by decide),
   readiness_acceptance.2.2.2.2 lateExnHealth "boom" (by decide) (by decide)⟩

/-! ## Handler-level helpers -/

/-- The parse of `sampleEventCreate`. -/
def sampleParsedCreate : Parsed :=
  { domainEndpoint := "search-x.region.es.amazonaws.com",
    indexName := "kb-index", region := "us-east-1",
    kbRoleArn := "arn:aws:iam::1:role/kb", adminRoleArn := none,
    requestType := "Create" }

/-- An exit that is `ready` or `exhausted` is not a raised exception. -/
theorem exit_not_raised {e : PollExit}
    (h : e = .ready ∨ e = .exhausted) : ∀ m, e ≠ .raised m := by
  intro m hc
  rcases h with h | h <;> rw [h] at hc <;> exact PollExit.noConfusion hc

/-- Whenever the handler gets past the poll, its request trace is the poll's
health calls, then the role-creation request, then whatever else was
issued. -/
theorem handlerCore_trace_shape (ev : LambdaEvent) (env : Env) (p : Parsed)
    (hp : parseEvent ev = .ok p) (hd : p.requestType ≠ "Delete")
    (hpoll : ∀ m, (poll env.health).exit ≠ .raised m) :
    ∃ t, (handlerCore ev env).2 =
      healthCalls (poll env.health) ++ Request.putRole :: t := by
  unfold handlerCore
  rw [hp]
  simp only [if_neg hd]
  cases hexit : (poll env.health).exit with
  | raised m => exact absurd hexit (hpoll m)
  | ready =>
    cases env.roleCreate with
    | err m => exact ⟨[], by simp⟩
    | ok c1 b1 =>
      cases env.broadMapping with
      | err m =>
        exact ⟨[Request.putBroadMapping
                  (backendRoles p.kbRoleArn p.adminRoleArn)], by simp⟩
      | ok c2 b2 =>
        cases env.narrowMapping with
        | err m =>
          exact ⟨[Request.putBroadMapping
                    (backendRoles p.kbRoleArn p.adminRoleArn),
                  Request.putNarrowMapping (kbOnlyRoles p.kbRoleArn)],
                 by simp⟩
        | ok c3 b3 =>
          cases env.indexCreate with
          | err m =>
            exact ⟨[Request.putBroadMapping
                      (backendRoles p.kbRoleArn p.adminRoleArn),
                    Request.putNarrowMapping (kbOnlyRoles p.kbRoleArn),
                    Request.putIndex p.indexName], by simp⟩
          | ok c4 b4 =>
            refine ⟨[Request.putBroadMapping
                       (backendRoles p.kbRoleArn p.adminRoleArn),
                     Request.putNarrowMapping (kbOnlyRoles p.kbRoleArn),
                     Request.putIndex p.indexName], ?_⟩
            simp [apply_ite]
  | exhausted =>
    cases env.roleCreate with
    | err m => exact ⟨[], by simp⟩
    | ok c1 b1 =>
      cases env.broadMapping with
      | err m =>
        exact ⟨[Request.putBroadMapping
                  (backendRoles p.kbRoleArn p.adminRoleArn)], by simp⟩
      | ok c2 b2 =>
        cases env.narrowMapping with
        | err m =>
          exact ⟨[Request.putBroadMapping
                    (backendRoles p.kbRoleArn p.adminRoleArn),
                  Request.putNarrowMapping (kbOnlyRoles p.kbRoleArn)],
                 by simp⟩
        | ok c3 b3 =>
          cases env.indexCreate with
          | err m =>
            exact ⟨[Request.putBroadMapping
                      (backendRoles p.kbRoleArn p.adminRoleArn),
                    Request.putNarrowMapping (kbOnlyRoles p.kbRoleArn),
                    Request.putIndex p.indexName], by simp⟩
          | ok c4 b4 =>
            refine ⟨[Request.putBroadMapping
                       (backendRoles p.kbRoleArn p.adminRoleArn),
                     Request.putNarrowMapping (kbOnlyRoles p.kbRoleArn),
                     Request.putIndex p.indexName], ?_⟩
            simp [apply_ite]

/-! ## Claim C2 — index-creation status decides the invocation's result -/

/-- An environment identical to `greenEnv` except that index creation
returns HTTP 400. -/
def badIndexEnv : Env :=
  { greenEnv with indexCreate := .ok 400 "resource_already_exists_exception" }

/-- Claim C2: in every invocation that reaches the index-creation step, a
200 or 201 index-creation status yields the success result
`{statusCode: 200, body: <message>}`, and any other status raises an error
whose message contains the response body text. -/
theorem index_status_decides_result (ev : LambdaEvent) (env : Env)
    (p : Parsed) (code : Nat) (body : String)
    (hp : parseEvent ev = .ok p) (hd : p.requestType ≠ "Delete")
    (hpoll : ∀ m, (poll env.health).exit ≠ .raised m)
    (h1 : ∃ c b, env.roleCreate = ReqOutcome.ok c b)
    (h2 : ∃ c b, env.broadMapping = ReqOutcome.ok c b)
    (h3 : ∃ c b, env.narrowMapping = ReqOutcome.ok c b)
    (h4 : env.indexCreate = ReqOutcome.ok code body) :
    ((code = 200 ∨ code = 201) →
      (handler ev env).1 = .ok ⟨200, createSuccessBody⟩) ∧
    (¬ (code = 200 ∨ code = 201) →
      ∃ l r, (handler ev env).1 = .error (l ++ body ++ r)) := by
  obtain ⟨c1, b1, h1⟩ := h1
  obtain ⟨c2, b2, h2⟩ := h2
  obtain ⟨c3, b3, h3⟩ := h3
  have hc := handlerCore_run ev env p c1 c2 c3 code b1 b2 b3 body
    hp hd hpoll h1 h2 h3 h4
  constructor
  · intro hok
    unfold handler
    rw [hc, if_pos hok]
  · intro hbad
    unfold handler
    rw [hc, if_neg hbad]
    refine ⟨"Failed to create index: Failed to create index: ", "", ?_⟩
    show Except.error ("Failed to create index: " ++
      ("Failed to create index: " ++ body)) = _
    rw [String.append_empty, ← String.append_assoc]
    rfl

/-- Witness for C2: against `greenEnv` (index creation returns 200) the
handler succeeds; against `badIndexEnv` (index creation returns 400) it
raises an error containing the response body. -/
theorem index_status_decides_result_witness :
    (handler sampleEventCreate greenEnv).1 = .ok ⟨200, createSuccessBody⟩ ∧
    ∃ l r, (handler sampleEventCreate badIndexEnv).1 =
      .error (l ++ "resource_already_exists_exception" ++ r) :=
  ⟨(index_status_decides_result sampleEventCreate greenEnv
      sampleParsedCreate 200 "{}" rfl (by decide)
      (exit_not_raised (Or.inl (by decide)))
      ⟨200, "{}", rfl⟩ ⟨200, "{}", rfl⟩ ⟨200, "{}", rfl⟩ rfl).1
    (Or.inl rfl),
   (index_status_decides_result sampleEventCreate badIndexEnv
      sampleParsedCreate 400 "resource_already_exists_exception" rfl
      (by decide) (exit_not_raised (Or.inl (by decide)))
      ⟨200, "{}", rfl⟩ ⟨200, "{}", rfl⟩ ⟨200, "{}", rfl⟩ rfl).2
    (by decide)⟩

/-! ## Claim C6 — non-2xx role creation never aborts -/

/-- Claim C6: in every invocation that reaches the role-creation step, any
returned role-creation status — 2xx or not — lets execution continue: the
broad-mapping request is issued regardless. -/
theorem role_creation_nonfatal (ev : LambdaEvent) (env : Env) (p : Parsed)
    (code : Nat) (body : String)
    (hp : parseEvent ev = .ok p) (hd : p.requestType ≠ "Delete")
    (hpoll : ∀ m, (poll env.health).exit ≠ .raised m)
    (hr : env.roleCreate = .ok code body) :
    Request.putBroadMapping (backendRoles p.kbRoleArn p.adminRoleArn) ∈
      (handler ev env).2 := by
  rw [handler_snd]
  unfold handlerCore
  rw [hp]
  simp only [if_neg hd]
  cases hexit : (poll env.health).exit with
  | raised m => exact absurd hexit (hpoll m)
  | ready =>
    simp only [hexit, hr]
    cases env.broadMapping <;> cases env.narrowMapping <;>
      cases env.indexCreate <;> simp [apply_ite]
  | exhausted =>
    simp only [hexit, hr]
    cases env.broadMapping <;> cases env.narrowMapping <;>
      cases env.indexCreate <;> simp [apply_ite]

/-- An environment where role creation returns HTTP 403 but everything else
succeeds. -/
def badRoleEnv : Env :=
  { greenEnv with roleCreate := .ok 403 "security_exception" }

/-- Witness for C6: with role creation returning 403, the broad-mapping
request is still issued. -/
theorem role_creation_nonfatal_witness :
    Request.putBroadMapping ["arn:aws:iam::1:role/kb"] ∈
      (handler sampleEventCreate badRoleEnv).2 :=
  role_creation_nonfatal sampleEventCreate badRoleEnv sampleParsedCreate
    403 "security_exception" rfl (by decide)
    (exit_not_raised (Or.inl (by decide))) rfl

/-! ## Claim C10 — Delete events still require the input fields -/

/-- Claim C10: field extraction precedes the Delete branch, so a Delete
event missing `DomainEndpoint`, `IndexName`, `Region` or `KbRoleArn` raises
a wrapped error beginning `Failed to create index:` (issuing no requests)
instead of returning the Delete success response. -/
theorem delete_missing_field_raises (ev : LambdaEvent) (env : Env)
    (props : Props)
    (hrp : ev.resourceProperties = some props)
    (hdel : ev.requestType = some "Delete")
    (hmiss : props.domainEndpoint = none ∨ props.indexName = none ∨
             props.region = none ∨ props.kbRoleArn = none) :
    ∃ m, handler ev env = (.error m, []) ∧
      pyStartsWith m "Failed to create index:" = true := by
  have hpe : ∃ m0 : String, parseEvent ev = .error m0 ∧
      pyStartsWith ("Failed to create index: " ++ m0)
        "Failed to create index:" = true := by
    rcases props with ⟨de, ix, rg, kb, ad⟩
    unfold parseEvent
    rw [hrp]
    rcases de with _ | de
    · exact ⟨_, rfl, by decide⟩
    rcases ix with _ | ix
    · exact ⟨_, rfl, by decide⟩
    rcases rg with _ | rg
    · exact ⟨_, rfl, by decide⟩
    rcases kb with _ | kb
    · exact ⟨_, rfl, by decide⟩
    · simp_all
  obtain ⟨m0, hpe, hsw⟩ := hpe
  refine ⟨"Failed to create index: " ++ m0, ?_, hsw⟩
  have hc : handlerCore ev env = (.error m0, []) := by
    unfold handlerCore
    rw [hpe]
  unfold handler
  rw [hc]

/-- A Delete event whose `ResourceProperties` lacks `DomainEndpoint`. -/
def missingEndpointDeleteEvent : LambdaEvent :=
  { resourceProperties := some
      { domainEndpoint := none, indexName := some "kb-index",
        region := some "us-east-1",
        kbRoleArn := some "arn:aws:iam::1:role/kb", adminRoleArn := none },
    requestType := some "Delete" }

/-- Witness for C10: the Delete event missing `DomainEndpoint` produces the
wrapped `KeyError` instead of the Delete success response. -/
theorem delete_missing_field_raises_witness :
    ∃ m, handler missingEndpointDeleteEvent greenEnv = (.error m, []) ∧
      pyStartsWith m "Failed to create index:" = true :=
  delete_missing_field_raises missingEndpointDeleteEvent greenEnv _
    rfl rfl (Or.inl rfl)

/-! ## Claim C1 — exhausting the readiness budget -/

/-- Claim C1, counterexample: with every required field present and every
health attempt answering HTTP 200 with status `"red"` (no transport
exception, all 30 attempts not ready), the invocation does NOT fail — it
issues the role-creation, both mapping, and index-creation requests after
the 30 health calls and returns success. -/
theorem exhausted_poll_counterexample :
    handler sampleEventCreate redEnv =
      (.ok ⟨200, createSuccessBody⟩,
       List.replicate 30 Request.health ++
         [Request.putRole,
          Request.putBroadMapping ["arn:aws:iam::1:role/kb"],
          Request.putNarrowMapping ["arn:aws:iam::1:role/kb"],
          Request.putIndex "kb-index"]) := rfl

/-- Claim C1 as amended: when every readiness-poll attempt observes the
cluster as not ready with no exception, the loop exhausts its 30-attempt
budget and the handler silently proceeds — after exactly 30 health calls it
issues the role-creation request (and the steps after it); the invocation
does not fail on account of the exhausted budget. -/
theorem exhausted_poll_proceeds (ev : LambdaEvent) (env : Env) (p : Parsed)
    (hp : parseEvent ev = .ok p) (hd : p.requestType ≠ "Delete")
    (hnr : ∀ j, j < max_retries → attemptStep (env.health j) = .notReady) :
    (poll env.health).exit = .exhausted ∧
    ∃ t, (handler ev env).2 =
      List.replicate max_retries Request.health ++ Request.putRole :: t := by
  have hpoll : poll env.health = ⟨.exhausted, exhaustedTrace⟩ :=
    pollAux_all_notReady env.health max_retries 0
      (fun j hj => by simpa using hnr j hj)
  refine ⟨by rw [hpoll], ?_⟩
  obtain ⟨t, ht⟩ := handlerCore_trace_shape ev env p hp hd
    (exit_not_raised (Or.inr (by rw [hpoll])))
  refine ⟨t, ?_⟩
  rw [handler_snd, ht, hpoll]
  have : healthCalls ⟨PollExit.exhausted, exhaustedTrace⟩ =
      List.replicate max_retries Request.health := by decide
  rw [this]

/-- Witness for C1 (amended): against `redEnv` the poll exhausts and the
handler's trace is the 30 health calls followed by the role-creation
request and the rest. -/
theorem exhausted_poll_proceeds_witness :
    (poll redEnv.health).exit = .exhausted ∧
    ∃ t, (handler sampleEventCreate redEnv).2 =
      List.replicate max_retries Request.health ++ Request.putRole :: t :=
  exhausted_poll_proceeds sampleEventCreate redEnv sampleParsedCreate
    rfl (by decide) (by decide)

end CreateIndex
